import Mathlib

/-!
Verification of the Kasa CLI helper (`src/backend/src/integrations/kasa_helper.py`)
against its natural-language specification.

The Python module is embedded shallowly:
- JSON values that the script prints are modelled by the inductive `JVal`;
- a Python object with dynamically probed attributes (`hasattr` / `getattr`)
  is modelled by a structure of `Option`-typed fields, `none` meaning the
  attribute is absent;
- the external python-kasa library calls (`Discover.discover`,
  `Discover.discover_single`, `device.update`) are modelled by explicit
  oracle values describing what the network interaction returned or raised;
- exceptions are modelled by dedicated constructors carrying `str(e)`;
- stdout and stderr are modelled as explicit lists of emitted values.
-/

/-- A JSON value, as produced by `json.dumps` in the script. -/
inductive JVal where
  | jnum  : ℚ → JVal
  | jstr  : String → JVal
  | jbool : Bool → JVal
  | jnull : JVal
  | jarr  : List JVal → JVal
  | jobj  : List (String × JVal) → JVal

/-- Python `"k" in result` on a dict: key membership. -/
def JVal.hasKey (j : JVal) (k : String) : Bool :=
  match j with
  | .jobj l => l.any (fun p => p.1 == k)
  | _ => false

/-- Dict access `result[k]`: the first binding of `k`, if present. -/
def JVal.lookupKey (j : JVal) (k : String) : Option JVal :=
  match j with
  | .jobj l => (l.find? (fun p => p.1 == k)).map (fun p => p.2)
  | _ => none

/-- Whether character list `p` occurs as a contiguous prefix of `s`. -/
def charPrefix : List Char → List Char → Bool
  | [], _ => true
  | _ :: _, [] => false
  | a :: as, b :: bs => a == b && charPrefix as bs

/-- Whether character list `p` occurs contiguously anywhere inside the
second list. Models Python `p in s` on strings. -/
def charSub (p : List Char) : List Char → Bool
  | [] => charPrefix p []
  | c :: rest => charPrefix p (c :: rest) || charSub p rest

/-- Python substring containment `p in s`. -/
def pyIn (p s : String) : Bool := charSub p.toList s.toList

/-- Python `hasattr(d, f) and d.f` on a boolean attribute: `none` models a
missing attribute, and a present attribute must be `true`. This also models
`getattr(d, f, False)` for an `Option Bool` field. -/
def pyFlag (o : Option Bool) : Bool := o.getD false

/-- Realtime emeter dict (`device.emeter_realtime`): an association list
from field name to numeric value, as the python-kasa library returns it. -/
def Realtime := List (String × ℚ)

instance : DecidableEq Realtime := by unfold Realtime; infer_instance

/-- Python `r.get(k)` and `k in r` support: the value bound to `k`, if any. -/
def Realtime.rget (r : Realtime) (k : String) : Option ℚ :=
  (r.find? (fun p => p.1 == k)).map (fun p => p.2)

/-- Python truthiness of the realtime dict: nonempty. -/
def Realtime.truthy (r : Realtime) : Bool := !(r.isEmpty)

/-- A child outlet of a power strip, with dynamically probed attributes. -/
structure ChildDevice where
  device_id : Option String
  host : Option String
  «alias» : Option String
  is_on : Option Bool
deriving DecidableEq

/-- Value of the `device.hw_info` attribute: either a dict (modelled as an
association list of string values) or some other object. -/
inductive HwInfo where
  | dict : List (String × String) → HwInfo
  | other : HwInfo
deriving DecidableEq

/-- Python truthiness of an `hw_info` value: a dict is truthy iff nonempty;
a non-dict object is truthy. -/
def HwInfo.truthy : HwInfo → Bool
  | .dict l => !(l.isEmpty)
  | .other => true

/-- Dict lookup inside a `hw_info` dict. -/
def HwInfo.get (h : HwInfo) (k : String) : Option String :=
  match h with
  | .dict l => (l.find? (fun p => p.1 == k)).map (fun p => p.2)
  | .other => none

/-- A connected `kasa.Device` object after `update()`, with every attribute
the script probes. `none` on an outer `Option` means the attribute is
absent (`hasattr` is false); a nested `Option` distinguishes a present
attribute whose value is Python `None`. -/
structure Device where
  /-- Lowered type name `device.device_type.name.lower()` when the
  attribute exists. -/
  device_type : Option String
  is_strip : Option Bool
  is_bulb : Option Bool
  is_color : Option Bool
  is_variable_color_temp : Option Bool
  is_dimmable : Option Bool
  is_plug : Option Bool
  has_emeter : Option Bool
  is_dimmer : Option Bool
  /-- Value of `getattr(device, 'device_id', None)`: an absent or `None`
  attribute collapses to `none`; a present string may still be empty
  (falsy). -/
  device_id : Option String
  «alias» : Option String
  model : Option String
  host : String
  is_on : Option Bool
  /-- Value of `device.mac` when the attribute exists (possibly empty). -/
  mac : Option String
  hw_info : Option HwInfo
  rssi : Option (Option Int)
  led : Option (Option Bool)
  brightness : Option (Option ℚ)
  color_temp : Option ℚ
  hsv : Option (List ℚ)
  children : Option (List ChildDevice)
  emeter_realtime : Option Realtime
  emeter_today : Option (Option ℚ)
  emeter_this_month : Option (Option ℚ)
deriving DecidableEq

/-- A `Device` with every probed attribute absent, for building fixtures. -/
def Device.blank (host : String) : Device where
  device_type := none
  is_strip := none
  is_bulb := none
  is_color := none
  is_variable_color_temp := none
  is_dimmable := none
  is_plug := none
  has_emeter := none
  is_dimmer := none
  device_id := none
  «alias» := none
  model := none
  host := host
  is_on := none
  mac := none
  hw_info := none
  rssi := none
  led := none
  brightness := none
  color_temp := none
  hsv := none
  children := none
  emeter_realtime := none
  emeter_today := none
  emeter_this_month := none

/-- Function `get_device_type` (kasa_helper.py, lines 74-110): determine
the device type string from capability flags and the lowered
`device_type` name. -/
def get_device_type (d : Device) : String :=
  let device_type := d.device_type.getD "unknown"
  if pyFlag d.is_strip then "power_strip"
  else if pyIn "strip" device_type then "power_strip"
  else if pyFlag d.is_bulb then
    (if pyFlag d.is_color then "bulb_color"
     else if pyFlag d.is_variable_color_temp then "bulb_tunable"
     else if pyFlag d.is_dimmable then "bulb_dimmable"
     else "bulb")
  else if pyIn "bulb" device_type then "bulb"
  else if pyFlag d.is_plug then
    (if pyFlag d.has_emeter then "plug_energy" else "plug")
  else if pyIn "plug" device_type then
    (if pyFlag d.has_emeter then "plug_energy" else "plug")
  else if pyFlag d.is_dimmer then "dimmer"
  else if pyIn "dimmer" device_type then "dimmer"
  else "plug"

/-- Resolution table for deviceType exactly as the spec words it (§4.6):
strip flag or type-string containing "strip"; bulb flag sub-resolved by
color, tunable, dimmable; type-string containing "bulb"; plug flag or
type-string containing "plug" with the energy-metering check; dimmer flag
or type-string containing "dimmer"; default plug. First match wins. -/
def deviceTypeSpec (d : Device) : String :=
  let device_type := d.device_type.getD "unknown"
  if pyFlag d.is_strip || pyIn "strip" device_type then "power_strip"
  else if pyFlag d.is_bulb then
    (if pyFlag d.is_color then "bulb_color"
     else if pyFlag d.is_variable_color_temp then "bulb_tunable"
     else if pyFlag d.is_dimmable then "bulb_dimmable"
     else "bulb")
  else if pyIn "bulb" device_type then "bulb"
  else if pyFlag d.is_plug || pyIn "plug" device_type then
    (if pyFlag d.has_emeter then "plug_energy" else "plug")
  else if pyFlag d.is_dimmer || pyIn "dimmer" device_type then "dimmer"
  else "plug"

/-- Credentials pair (`kasa.Credentials`) built from the two environment
variables. -/
structure Credentials where
  username : String
  password : String
deriving DecidableEq

/-- Function `get_credentials` (lines 24-28):
`Credentials(KASA_EMAIL, KASA_PASSWORD)` when both environment strings are
truthy (nonempty), else `None`. -/
def get_credentials (email password : String) : Option Credentials :=
  if email ≠ "" ∧ password ≠ "" then some ⟨email, password⟩ else none

/-- Result of one `device.update()` call: success, or a raised exception
carrying `str(e)`. -/
inductive UpdateRes where
  | ok : UpdateRes
  | exn : String → UpdateRes
deriving DecidableEq

/-- Observable outcome of one `Discover.discover_single(ip, ...)` call
followed (when a device is returned) by its `update()`: the call raised,
returned `None`, or returned a device together with its update outcome. -/
inductive DiscoverSingleRes where
  | exn : String → DiscoverSingleRes
  | notFound : DiscoverSingleRes
  | found : Device → UpdateRes → DiscoverSingleRes
deriving DecidableEq

/-- Device-shaped error object built in the `except` branches of
`get_device` and `get_energy`. -/
def errObj (e ip : String) : JVal :=
  .jobj [("error", .jstr e), ("ip", .jstr ip)]

/-- Resolution of `deviceId` used by both dict builders (lines 116, 184):
`getattr(device, 'device_id', None) or device.host`. An absent or `None`
attribute collapses to `none`; an empty string is falsy and also falls
back to the host. -/
def resolveDeviceId (d : Device) : String :=
  match d.device_id with
  | some s => if s == "" then d.host else s
  | none => d.host

/-- Child entry built inside `device_to_dict` (lines 160-165). -/
def child_to_dict (c : ChildDevice) : JVal :=
  .jobj [
    ("id", .jstr (c.device_id.getD (c.host.getD "unknown"))),
    ("alias", .jstr (c.«alias».getD "Unknown")),
    ("isOn", .jbool (c.is_on.getD false))]

/-- Function `device_to_dict` (lines 113-167): the fixed base fields
followed by the optional fields, each appended only when the
corresponding attribute probe succeeds. -/
def device_to_dict (d : Device) : JVal :=
  let base : List (String × JVal) := [
    ("deviceId", .jstr (resolveDeviceId d)),
    ("alias", .jstr (d.«alias».getD "Unknown")),
    ("deviceType", .jstr (get_device_type d)),
    ("model", .jstr (d.model.getD "Unknown")),
    ("host", .jstr d.host),
    ("isOn", .jbool (d.is_on.getD false)),
    ("hasEnergyMonitoring", .jbool (d.has_emeter.getD false))]
  let macPart : List (String × JVal) :=
    match d.mac with
    | some s => if s == "" then [] else [("mac", .jstr s)]
    | none => []
  let hwPart : List (String × JVal) :=
    match d.hw_info with
    | some h =>
      if h.truthy then
        match h with
        | .dict _ =>
          (match h.get "sw_ver" with
           | some v => [("fwVersion", .jstr v)] | none => []) ++
          (match h.get "hw_ver" with
           | some v => [("hwVersion", .jstr v)] | none => [])
        | .other => []
      else []
    | none => []
  let rssiPart : List (String × JVal) :=
    match d.rssi with
    | some (some v) => [("rssi", .jnum (v : ℚ))]
    | _ => []
  let ledPart : List (String × JVal) :=
    match d.led with
    | some (some b) => [("ledOff", .jbool (!b))]
    | _ => []
  let brightPart : List (String × JVal) :=
    match d.brightness with
    | some (some v) => [("brightness", .jnum v)]
    | _ => []
  let ctPart : List (String × JVal) :=
    match d.color_temp with
    | some v => if v == 0 then [] else [("colorTemp", .jnum v)]
    | none => []
  let hsvPart : List (String × JVal) :=
    match d.hsv with
    | some l =>
      if l.isEmpty then []
      else
        [("hue", match l.head? with | some v => .jnum v | none => .jnull),
         ("saturation", match l[1]? with | some v => .jnum v | none => .jnull)]
    | none => []
  let childPart : List (String × JVal) :=
    match d.children with
    | some cl =>
      if cl.isEmpty then [] else [("children", .jarr (cl.map child_to_dict))]
    | none => []
  .jobj (base ++ macPart ++ hwPart ++ rssiPart ++ ledPart ++ brightPart ++
         ctPart ++ hsvPart ++ childPart)

/-- Function `get_device` (lines 48-59): a connected, updated device
becomes a dict; `None` from `discover_single` falls through to `None`;
any exception from `discover_single` or `update` becomes the
device-shaped error object. -/
def get_device (ip : String) (net : DiscoverSingleRes) : Option JVal :=
  match net with
  | .exn e => some (errObj e ip)
  | .notFound => none
  | .found d .ok => some (device_to_dict d)
  | .found _ (.exn e) => some (errObj e ip)

/-- Normalization expression of lines 198-201:
`realtime.get(base, realtime.get(milli, 0) / 1000 if milli in realtime
else 0)`. -/
def getWithMilli (r : Realtime) (base milli : String) : ℚ :=
  match r.rget base with
  | some v => v
  | none =>
    match r.rget milli with
    | some m => m / 1000
    | none => 0

/-- Energy result dict of `get_energy` (lines 183-209): all numeric fields
start at 0 and are overwritten only when the corresponding attribute
probe succeeds (and, for the realtime block, the realtime dict is
truthy). -/
def energy_to_dict (d : Device) : JVal :=
  let rtOpt : Option Realtime :=
    match d.emeter_realtime with
    | some r => if r.truthy then some r else none
    | none => none
  let currentPower : ℚ :=
    match rtOpt with
    | some r => getWithMilli r "power" "power_mw"
    | none => 0
  let voltage : ℚ :=
    match rtOpt with
    | some r => getWithMilli r "voltage" "voltage_mv"
    | none => 0
  let current : ℚ :=
    match rtOpt with
    | some r => getWithMilli r "current" "current_ma"
    | none => 0
  let totalEnergy : ℚ :=
    match rtOpt with
    | some r => getWithMilli r "total" "total_wh"
    | none => 0
  let todayEnergy : ℚ :=
    match d.emeter_today with
    | some (some v) => v
    | _ => 0
  let monthEnergy : ℚ :=
    match d.emeter_this_month with
    | some (some v) => v
    | _ => 0
  .jobj [
    ("deviceId", .jstr (resolveDeviceId d)),
    ("alias", .jstr (d.«alias».getD "Unknown")),
    ("currentPower", .jnum currentPower),
    ("voltage", .jnum voltage),
    ("current", .jnum current),
    ("todayEnergy", .jnum todayEnergy),
    ("monthEnergy", .jnum monthEnergy),
    ("totalEnergy", .jnum totalEnergy)]

/-- Function `get_energy` (lines 170-213): `None` when no device answers
or the device lacks the emeter capability; the normalized energy dict on
success; the device-shaped error object when any step raises. -/
def get_energy (ip : String) (net : DiscoverSingleRes) : Option JVal :=
  match net with
  | .exn e => some (errObj e ip)
  | .notFound => none
  | .found _ (.exn e) => some (errObj e ip)
  | .found d .ok =>
    if pyFlag d.has_emeter then some (energy_to_dict d) else none

/-- One line emitted on standard error: either a plain formatted text line
or a `json.dumps` of an object. -/
inductive StderrEntry where
  | textLine : String → StderrEntry
  | jsonLine : JVal → StderrEntry

/-- String content of `result['error']` in an error object. -/
def errText (j : JVal) : String :=
  match j.lookupKey "error" with
  | some (.jstr s) => s
  | _ => ""

/-- Function `get_devices` (lines 62-71): sequential loop over the ip
list; a successful dict is appended to the result, an error dict is
reported on standard error (`Error for {ip}: {error}`), a `None` result is
skipped. Returns (result array, stderr lines). -/
def get_devices (ips : List String) (net : String → DiscoverSingleRes) :
    List JVal × List StderrEntry :=
  match ips with
  | [] => ([], [])
  | ip :: rest =>
    let tail := get_devices rest net
    match get_device ip (net ip) with
    | none => tail
    | some j =>
      if j.hasKey "error" then
        (tail.1, .textLine ("Error for " ++ ip ++ ": " ++ errText j) :: tail.2)
      else (j :: tail.1, tail.2)

/-- Function `get_all_energy` (lines 216-223): sequential loop over the ip
list; a successful dict is appended, while an error dict or `None` result
is skipped with no print of any kind. Returns (result array, stderr
lines) — the stderr component records what the loop emits, namely
nothing. -/
def get_all_energy (ips : List String) (net : String → DiscoverSingleRes) :
    List JVal × List StderrEntry :=
  match ips with
  | [] => ([], [])
  | ip :: rest =>
    let tail := get_all_energy rest net
    match get_energy ip (net ip) with
    | none => tail
    | some j =>
      if j.hasKey "error" then tail
      else (j :: tail.1, tail.2)

/-- Oracle for one `Discover.discover(...)` broadcast: the call raised, or
produced its ip-keyed mapping of devices, each paired with the outcome of
the subsequent `device.update()` call. The mapping is listed in iteration
order of `found.items()`. -/
inductive DiscoverRes where
  | exn : String → DiscoverRes
  | ok : List (String × Device × UpdateRes) → DiscoverRes

/-- Loop body of `discover_devices` (lines 37-42): per discovered entry,
append the dict on successful update, else print
`Error updating device {ip}: {e}` to standard error and continue. -/
def discoverLoop : List (String × Device × UpdateRes) →
    List JVal × List StderrEntry
  | [] => ([], [])
  | (ip, d, u) :: rest =>
    let tail := discoverLoop rest
    match u with
    | .ok => (device_to_dict d :: tail.1, tail.2)
    | .exn e =>
      (tail.1, .textLine ("Error updating device " ++ ip ++ ": " ++ e) :: tail.2)

/-- Function `discover_devices` (lines 31-45): on a raised broadcast the
json error object goes to standard error and the empty list is returned;
otherwise the per-device loop runs over every reply. -/
def discover_devices (net : DiscoverRes) : List JVal × List StderrEntry :=
  match net with
  | .exn e => ([], [.jsonLine (.jobj [("error", .jstr e)])])
  | .ok items => discoverLoop items

/-- Python `int(s)`, as far as the CLI uses it: `none` models the raised
`ValueError`. -/
def pyInt (s : String) : Option Int := s.toInt?

/-- Message of the `ValueError` raised by `int(s)` on a bad literal. -/
def intErrMsg (s : String) : String :=
  "invalid literal for int with base 10: " ++ s

/-- Comma-separated ip-list parsing of lines 251, 267, 274:
`[ip.strip() for ip in arg.split(",") if ip.strip()]`. -/
def parseIps (s : String) : List String :=
  ((s.splitOn ",").map String.trim).filter (fun x => x ≠ "")

/-- Everything outside the process that one `main()` invocation can
observe: the broadcast oracle and the per-ip single-device oracle. -/
structure World where
  discover : DiscoverRes
  single : String → DiscoverSingleRes

/-- Function `main` (lines 226-294), as (stdout JSON objects, stderr
entries, exit code). `sys.argv` is passed whole, script name included.
The only statements inside the `try` that can raise are the `int(...)`
timeout parses (every helper call catches its own exceptions), so the
outer `except` branch is entered exactly when such a parse fails; it is
embedded as a guard on the parse result. -/
def main_run (argv : List String) (w : World) :
    List JVal × List StderrEntry × Nat :=
  if argv.length < 2 then
    ([.jobj [("error", .jstr "No command specified")]], [], 1)
  else if argv.getD 1 "" = "discover" then
    if argv.length > 2 ∧ (pyInt (argv.getD 2 "")).isNone then
      ([.jobj [("error", .jstr (intErrMsg (argv.getD 2 "")))]], [], 1)
    else
      ([.jobj [("devices", .jarr (discover_devices w.discover).1)]],
       (discover_devices w.discover).2, 0)
  else if argv.getD 1 "" = "get-device" then
    if argv.length < 3 then
      ([.jobj [("error", .jstr "No IP specified")]], [], 1)
    else
      ([.jobj [("device",
          (get_device (argv.getD 2 "") (w.single (argv.getD 2 ""))).getD .jnull)]],
       [], 0)
  else if argv.getD 1 "" = "get-devices" then
    if argv.length < 3 then
      ([.jobj [("error", .jstr "No IPs specified")]], [], 1)
    else
      ([.jobj [("devices",
          .jarr (get_devices (parseIps (argv.getD 2 "")) w.single).1)]],
       (get_devices (parseIps (argv.getD 2 "")) w.single).2, 0)
  else if argv.getD 1 "" = "get-energy" then
    if argv.length < 3 then
      ([.jobj [("error", .jstr "No IP specified")]], [], 1)
    else
      ([.jobj [("energy",
          (get_energy (argv.getD 2 "") (w.single (argv.getD 2 ""))).getD .jnull)]],
       [], 0)
  else if argv.getD 1 "" = "get-all-energy" then
    if argv.length < 3 then
      ([.jobj [("error", .jstr "No IPs specified")]], [], 1)
    else
      ([.jobj [("devices",
          .jarr (get_all_energy (parseIps (argv.getD 2 "")) w.single).1)]],
       (get_all_energy (parseIps (argv.getD 2 "")) w.single).2, 0)
  else if argv.getD 1 "" = "test" then
    if argv.length > 2 ∧ argv.getD 2 "" ≠ "" then
      ([(if (get_devices (parseIps (argv.getD 2 "")) w.single).1.isEmpty then
          .jobj [("success", .jbool false),
                 ("error", .jstr "No devices found at specified IPs")]
        else
          .jobj [("success", .jbool true),
                 ("devices", .jarr (get_devices (parseIps (argv.getD 2 "")) w.single).1),
                 ("count", .jnum ((get_devices (parseIps (argv.getD 2 "")) w.single).1.length : ℚ))])],
       (get_devices (parseIps (argv.getD 2 "")) w.single).2, 0)
    else if argv.length > 3 ∧ (pyInt (argv.getD 3 "")).isNone then
      ([.jobj [("error", .jstr (intErrMsg (argv.getD 3 "")))]], [], 1)
    else
      ([(if (discover_devices w.discover).1.isEmpty then
          .jobj [("success", .jbool false),
                 ("error", .jstr "No devices discovered")]
        else
          .jobj [("success", .jbool true),
                 ("devices", .jarr (discover_devices w.discover).1),
                 ("count", .jnum ((discover_devices w.discover).1.length : ℚ))])],
       (discover_devices w.discover).2, 0)
  else
    ([.jobj [("error", .jstr ("Unknown command: " ++ argv.getD 1 ""))]], [], 1)

/-- Top-level failure, in the words of the spec and of claim C7: no
command, a missing required argument, an uncaught exception (here: a
failing `int(...)` timeout parse), or an unknown command token. -/
def top_failure (argv : List String) : Bool :=
  if argv.length < 2 then true
  else if argv.getD 1 "" = "discover" then
    if argv.length > 2 ∧ (pyInt (argv.getD 2 "")).isNone then true else false
  else if argv.getD 1 "" = "get-device" then
    if argv.length < 3 then true else false
  else if argv.getD 1 "" = "get-devices" then
    if argv.length < 3 then true else false
  else if argv.getD 1 "" = "get-energy" then
    if argv.length < 3 then true else false
  else if argv.getD 1 "" = "get-all-energy" then
    if argv.length < 3 then true else false
  else if argv.getD 1 "" = "test" then
    if argv.length > 2 ∧ argv.getD 2 "" ≠ "" then false
    else if argv.length > 3 ∧ (pyInt (argv.getD 3 "")).isNone then true
    else false
  else true

/-- Modelled from the spec: the Legacy Codec (§4.2) is implemented by the
external python-kasa library and has no source file in this repository.
Per §4.2 and the glossary it is the XOR-obfuscated stream of the legacy
Kasa protocol with a fixed key: the keystream starts from the fixed key
byte 171 and each ciphertext byte feeds back as the next key byte.
Encoding direction. -/
def legacyEncode (key : Nat) : List Nat → List Nat
  | [] => []
  | b :: bs =>
    let c := key ^^^ b
    c :: legacyEncode c bs

/-- Modelled from the spec: decoding direction of the Legacy Codec; the
key stream is reconstructed from the ciphertext bytes themselves. -/
def legacyDecode (key : Nat) : List Nat → List Nat
  | [] => []
  | c :: cs => (key ^^^ c) :: legacyDecode c cs

/-- Legacy Codec `encode(plaintext) -> bytes` with its fixed initial key. -/
def encode (bs : List Nat) : List Nat := legacyEncode 171 bs

/-- Legacy Codec `decode(bytes) -> plaintext` with its fixed initial key. -/
def decode (cs : List Nat) : List Nat := legacyDecode 171 cs

/-! Fixtures used by the theorems below. -/

/-- A bulb response carrying both the bulb and the color flags. -/
def colorBulbFixture : Device :=
  { Device.blank "192.168.0.5" with is_bulb := some true, is_color := some true }

/-- A realtime dict reporting only `power_mw=1500`. -/
def rtMilliOnly : Realtime := [("power_mw", 1500)]

/-- A realtime dict reporting both `power=2.0` and `power_mw=1500`. -/
def rtBoth : Realtime := [("power", 2), ("power_mw", 1500)]

/-- An emeter device whose realtime dict is `rtMilliOnly`. -/
def devMilliOnly : Device :=
  { Device.blank "10.0.0.7" with
      has_emeter := some true, emeter_realtime := some rtMilliOnly }

/-- An emeter device whose realtime dict is `rtBoth`. -/
def devBoth : Device :=
  { Device.blank "10.0.0.7" with
      has_emeter := some true, emeter_realtime := some rtBoth }

/-- One physical device (deviceId `dev1`) as seen on its first address. -/
def dupDevA : Device :=
  { Device.blank "10.0.0.1" with device_id := some "dev1" }

/-- The same physical device (deviceId `dev1`) on a second address. -/
def dupDevB : Device :=
  { Device.blank "10.0.0.2" with device_id := some "dev1" }

/-- A discovery reply set where one device answered on two addresses. -/
def dupItems : List (String × Device × UpdateRes) :=
  [("10.0.0.1", dupDevA, .ok), ("10.0.0.2", dupDevB, .ok)]

/-- Three discovered devices of which the middle one times out on
`update()`. -/
def trioItems : List (String × Device × UpdateRes) :=
  [("10.0.0.1", Device.blank "10.0.0.1", .ok),
   ("10.0.0.2", Device.blank "10.0.0.2", .exn "timeout"),
   ("10.0.0.3", Device.blank "10.0.0.3", .ok)]

/-! Theorems. -/

/-- Collapsing two chained `if`s with the same result into a disjunction. -/
theorem if_or_collapse (c1 c2 : Bool) (x y : String) :
    (if c1 then x else if c2 then x else y) = (if c1 || c2 then x else y) := by
  cases c1 <;> cases c2 <;> simp

/-- Claim C2: deviceType resolution follows the first-match priority order
of §4.6 — provably equal, on every device response, to the decision table
transcribed from the spec — and a response with both is_bulb=true and
is_color=true resolves to "bulb_color", never "bulb". -/
theorem c2_device_type_priority_order :
    (∀ d : Device, get_device_type d = deviceTypeSpec d) ∧
    get_device_type colorBulbFixture = "bulb_color" ∧
    get_device_type colorBulbFixture ≠ "bulb" := by
  refine ⟨fun d => ?_, by decide, by decide⟩
  unfold get_device_type deviceTypeSpec
  rw [if_or_collapse, if_or_collapse, if_or_collapse]

/-- Claim C9: get_credentials yields a Credentials object exactly when both
environment strings are nonempty; an empty or unset member of the pair
yields None, i.e. unauthenticated mode. -/
theorem c9_credentials_both_required :
    (∀ email password : String,
      (get_credentials email password).isSome =
        (decide (email ≠ "") && decide (password ≠ ""))) ∧
    (∀ p : String, get_credentials "" p = none) ∧
    (∀ e : String, get_credentials e "" = none) := by
  refine ⟨fun email password => ?_, fun p => ?_, fun e => ?_⟩
  · by_cases he : email = "" <;> by_cases hp : password = "" <;>
      simp [get_credentials, he, hp]
  · simp [get_credentials]
  · simp [get_credentials]

/-- Claim C1: each energy field is the base-unit value whenever the
base-unit key is present in the realtime dict, the milli-unit value
divided by 1000 when only the milli-unit key is present, and 0 when
neither is; the four fields of the energy dict are exactly these
normalizations of the (power, power_mw), (voltage, voltage_mv),
(current, current_ma), (total, total_wh) key pairs. -/
theorem c1_energy_unit_normalization (d : Device) (r : Realtime)
    (hrt : d.emeter_realtime = some r) (htr : r.truthy = true) :
    ((energy_to_dict d).lookupKey "currentPower" =
      some (.jnum (getWithMilli r "power" "power_mw"))) ∧
    ((energy_to_dict d).lookupKey "voltage" =
      some (.jnum (getWithMilli r "voltage" "voltage_mv"))) ∧
    ((energy_to_dict d).lookupKey "current" =
      some (.jnum (getWithMilli r "current" "current_ma"))) ∧
    ((energy_to_dict d).lookupKey "totalEnergy" =
      some (.jnum (getWithMilli r "total" "total_wh"))) ∧
    (∀ base milli : String,
      (∀ v, r.rget base = some v → getWithMilli r base milli = v) ∧
      (r.rget base = none → ∀ m, r.rget milli = some m →
        getWithMilli r base milli = m / 1000) ∧
      (r.rget base = none → r.rget milli = none →
        getWithMilli r base milli = 0)) := by
  refine ⟨?_, ?_, ?_, ?_, fun base milli => ⟨?_, ?_, ?_⟩⟩
  · simp [energy_to_dict, hrt, htr, JVal.lookupKey]
  · simp [energy_to_dict, hrt, htr, JVal.lookupKey]
  · simp [energy_to_dict, hrt, htr, JVal.lookupKey]
  · simp [energy_to_dict, hrt, htr, JVal.lookupKey]
  · intro v hv; simp [getWithMilli, hv]
  · intro hb m hm; simp [getWithMilli, hb, hm]
  · intro hb hm; simp [getWithMilli, hb, hm]

/-- Witness for C1: with only `power_mw=1500` the normalized currentPower
is 1.5; with both `power=2.0` and `power_mw=1500` it is 2.0. -/
theorem c1_energy_unit_normalization_witness :
    (energy_to_dict devMilliOnly).lookupKey "currentPower" =
      some (.jnum (3 / 2)) ∧
    (energy_to_dict devBoth).lookupKey "currentPower" = some (.jnum 2) := by
  constructor
  · have hc := c1_energy_unit_normalization devMilliOnly rtMilliOnly rfl rfl
    have hval : getWithMilli rtMilliOnly "power" "power_mw" = 1500 / 1000 :=
      (hc.2.2.2.2 "power" "power_mw").2.1 rfl 1500 rfl
    rw [hc.1, hval, show (1500 : ℚ) / 1000 = 3 / 2 by norm_num]
  · have hc := c1_energy_unit_normalization devBoth rtBoth rfl rfl
    have hval : getWithMilli rtBoth "power" "power_mw" = 2 :=
      (hc.2.2.2.2 "power" "power_mw").1 2 rfl
    rw [hc.1, hval]

/-- Claim C6: on any raised exception — from discover_single or from
update — get_device and get_energy return the device-shaped error object
holding exactly the error string and the queried ip, never propagating
the exception (the remaining outcomes return a device dict or None). -/
theorem c6_single_device_error_shape :
    (∀ ip e : String, get_device ip (.exn e) = some (errObj e ip)) ∧
    (∀ ip e : String, ∀ d : Device,
      get_device ip (.found d (.exn e)) = some (errObj e ip)) ∧
    (∀ ip e : String, get_energy ip (.exn e) = some (errObj e ip)) ∧
    (∀ ip e : String, ∀ d : Device,
      get_energy ip (.found d (.exn e)) = some (errObj e ip)) ∧
    (∀ ip e : String,
      errObj e ip = .jobj [("error", .jstr e), ("ip", .jstr ip)]) := by
  exact ⟨fun _ _ => rfl, fun _ _ _ => rfl, fun _ _ => rfl,
         fun _ _ _ => rfl, fun _ _ => rfl⟩

/-- Counterexample to claim C3: in a get-all-energy batch over one address
whose query raises, the per-device error object exists (and carries the
"error" key), yet the batch returns an empty result array and writes
nothing to standard error — the failure is dropped from both channels. -/
theorem c3_counterexample_all_energy_silent :
    get_energy "10.0.0.9" (DiscoverSingleRes.exn "boom") =
      some (errObj "boom" "10.0.0.9") ∧
    (errObj "boom" "10.0.0.9").hasKey "error" = true ∧
    get_all_energy ["10.0.0.9"] (fun _ => .exn "boom") = ([], []) :=
  ⟨rfl, rfl, rfl⟩

/-- Claim C3 as amended: get-devices writes one standard-error line per
failing device and omits it from the results, never aborting; get-all-energy
likewise omits failing devices and never aborts, but emits nothing on
standard error — its per-device errors are silently discarded. -/
theorem c3_batch_error_channels (ips : List String)
    (net : String → DiscoverSingleRes) :
    ((get_devices ips net).1 = ips.filterMap (fun ip =>
        match get_device ip (net ip) with
        | some j => if j.hasKey "error" then none else some j
        | none => none)) ∧
    ((get_devices ips net).2 = ips.filterMap (fun ip =>
        match get_device ip (net ip) with
        | some j =>
          if j.hasKey "error" then
            some (.textLine ("Error for " ++ ip ++ ": " ++ errText j))
          else none
        | none => none)) ∧
    ((get_all_energy ips net).1 = ips.filterMap (fun ip =>
        match get_energy ip (net ip) with
        | some j => if j.hasKey "error" then none else some j
        | none => none)) ∧
    ((get_all_energy ips net).2 = []) := by
  refine ⟨?_, ?_, ?_, ?_⟩
  · induction ips with
    | nil => rfl
    | cons ip rest ih =>
      simp only [get_devices, List.filterMap_cons]
      cases hj : get_device ip (net ip) with
      | none => simpa using ih
      | some j =>
        by_cases he : j.hasKey "error"
        · simp [he, ih]
        · simp [he, ih]
  · induction ips with
    | nil => rfl
    | cons ip rest ih =>
      simp only [get_devices, List.filterMap_cons]
      cases hj : get_device ip (net ip) with
      | none => simpa using ih
      | some j =>
        by_cases he : j.hasKey "error"
        · simp [he, ih]
        · simp [he, ih]
  · induction ips with
    | nil => rfl
    | cons ip rest ih =>
      simp only [get_all_energy, List.filterMap_cons]
      cases hj : get_energy ip (net ip) with
      | none => simpa using ih
      | some j =>
        by_cases he : j.hasKey "error"
        · simp [he, ih]
        · simp [he, ih]
  · induction ips with
    | nil => rfl
    | cons ip rest ih =>
      simp only [get_all_energy]
      cases hj : get_energy ip (net ip) with
      | none => simpa using ih
      | some j =>
        by_cases he : j.hasKey "error"
        · simp [he, ih]
        · simp [he, ih]

/-- Lookup of the deviceId field in a device dict. -/
theorem device_dict_deviceId (d : Device) :
    (device_to_dict d).lookupKey "deviceId" = some (.jstr (resolveDeviceId d)) :=
  rfl

/-- Counterexample to claim C4: a responder set where the one physical
device (deviceId "dev1") replies on two addresses produces two result
entries, both resolving to deviceId "dev1" — discovery did not
deduplicate by resolved deviceId, so the device does not appear once. -/
theorem c4_counterexample_duplicate_device_id :
    (discover_devices (.ok dupItems)).1.length = 2 ∧
    ((discover_devices (.ok dupItems)).1.map (fun j => j.lookupKey "deviceId")) =
      [some (.jstr "dev1"), some (.jstr "dev1")] :=
  ⟨rfl, rfl⟩

/-- Claim C4 as amended: discovery keeps the per-IP keying of the library
discovery map — each successfully updated reply contributes exactly one
result entry, so a device replying on several addresses appears once per
address (its deviceId repeated), and the deviceId list is a function of
the responder set, so two runs against the same responders agree. -/
theorem c4_per_address_results (items : List (String × Device × UpdateRes)) :
    ((discover_devices (.ok items)).1.map (fun j => j.lookupKey "deviceId")) =
      items.filterMap (fun t =>
        match t.2.2 with
        | .ok => some (some (.jstr (resolveDeviceId t.2.1)))
        | .exn _ => none) := by
  induction items with
  | nil => rfl
  | cons t rest ih =>
    obtain ⟨ip, d, u⟩ := t
    simp only [discover_devices] at ih ⊢
    cases u with
    | ok => simp [discoverLoop, List.filterMap_cons, device_dict_deviceId, ih]
    | exn e => simp [discoverLoop, List.filterMap_cons, ih]

/-- Claim C5: a failing per-device update during discovery is omitted from
the returned list and reported as a standard-error line while every other
device is still returned (the batch is a filter over all replies, never an
abort); over 3 devices of which one times out, exactly the 2 successful
entries are returned with one diagnostic line; and the discover command
exits 0 whatever the discovery outcome, so the failure never reaches the
process exit code. -/
theorem c5_discovery_partial_failure :
    (∀ items : List (String × Device × UpdateRes),
      ((discover_devices (.ok items)).1 = items.filterMap (fun t =>
          match t.2.2 with
          | .ok => some (device_to_dict t.2.1)
          | .exn _ => none)) ∧
      ((discover_devices (.ok items)).2 = items.filterMap (fun t =>
          match t.2.2 with
          | .exn e =>
            some (.textLine ("Error updating device " ++ t.1 ++ ": " ++ e))
          | .ok => none))) ∧
    ((discover_devices (.ok trioItems)).1 =
      [device_to_dict (Device.blank "10.0.0.1"),
       device_to_dict (Device.blank "10.0.0.3")]) ∧
    ((discover_devices (.ok trioItems)).2 =
      [.textLine "Error updating device 10.0.0.2: timeout"]) ∧
    (∀ a0 : String, ∀ w : World, (main_run [a0, "discover"] w).2.2 = 0) := by
  refine ⟨fun items => ?_, rfl, rfl, fun a0 w => rfl⟩
  induction items with
  | nil => exact ⟨rfl, rfl⟩
  | cons t rest ih =>
    obtain ⟨ip, d, u⟩ := t
    obtain ⟨ih1, ih2⟩ := ih
    simp only [discover_devices] at ih1 ih2 ⊢
    cases u with
    | ok => exact ⟨by simp [discoverLoop, List.filterMap_cons, ih1],
                   by simp [discoverLoop, List.filterMap_cons, ih2]⟩
    | exn e => exact ⟨by simp [discoverLoop, List.filterMap_cons, ih1],
                      by simp [discoverLoop, List.filterMap_cons, ih2]⟩

/-- Claim C7: every invocation prints exactly one JSON object on standard
output, and the exit code is 1 exactly on a top-level failure (no command,
missing required argument, failing int parse, unknown command) and 0
otherwise. -/
theorem c7_single_output_and_exit_codes (argv : List String) (w : World) :
    (main_run argv w).1.length = 1 ∧
    (main_run argv w).2.2 = (if top_failure argv then 1 else 0) := by
  unfold main_run top_failure
  by_cases h1 : argv.length < 2
  · simp only [if_pos h1]; exact ⟨rfl, rfl⟩
  simp only [if_neg h1]
  by_cases hc1 : argv.getD 1 "" = "discover"
  · simp only [if_pos hc1]
    by_cases hp : argv.length > 2 ∧ (pyInt (argv.getD 2 "")).isNone = true
    · simp only [if_pos hp]; exact ⟨rfl, rfl⟩
    · simp only [if_neg hp]; exact ⟨rfl, rfl⟩
  simp only [if_neg hc1]
  by_cases hc2 : argv.getD 1 "" = "get-device"
  · simp only [if_pos hc2]
    by_cases hl : argv.length < 3
    · simp only [if_pos hl]; exact ⟨rfl, rfl⟩
    · simp only [if_neg hl]; exact ⟨rfl, rfl⟩
  simp only [if_neg hc2]
  by_cases hc3 : argv.getD 1 "" = "get-devices"
  · simp only [if_pos hc3]
    by_cases hl : argv.length < 3
    · simp only [if_pos hl]; exact ⟨rfl, rfl⟩
    · simp only [if_neg hl]; exact ⟨rfl, rfl⟩
  simp only [if_neg hc3]
  by_cases hc4 : argv.getD 1 "" = "get-energy"
  · simp only [if_pos hc4]
    by_cases hl : argv.length < 3
    · simp only [if_pos hl]; exact ⟨rfl, rfl⟩
    · simp only [if_neg hl]; exact ⟨rfl, rfl⟩
  simp only [if_neg hc4]
  by_cases hc5 : argv.getD 1 "" = "get-all-energy"
  · simp only [if_pos hc5]
    by_cases hl : argv.length < 3
    · simp only [if_pos hl]; exact ⟨rfl, rfl⟩
    · simp only [if_neg hl]; exact ⟨rfl, rfl⟩
  simp only [if_neg hc5]
  by_cases hc6 : argv.getD 1 "" = "test"
  · simp only [if_pos hc6]
    by_cases ht1 : argv.length > 2 ∧ argv.getD 2 "" ≠ ""
    · simp only [if_pos ht1]; exact ⟨rfl, rfl⟩
    · simp only [if_neg ht1]
      by_cases ht2 : argv.length > 3 ∧ (pyInt (argv.getD 3 "")).isNone = true
      · simp only [if_pos ht2]; exact ⟨rfl, rfl⟩
      · simp only [if_neg ht2]; exact ⟨rfl, rfl⟩
  simp only [if_neg hc6]
  exact ⟨rfl, rfl⟩

/-- Round trip of the autokey XOR stream for an arbitrary initial key. -/
theorem legacy_roundtrip (key : Nat) (bs : List Nat) :
    legacyDecode key (legacyEncode key bs) = bs := by
  induction bs generalizing key with
  | nil => rfl
  | cons b bs ih =>
    simp only [legacyEncode, legacyDecode, ih]
    rw [← Nat.xor_assoc, Nat.xor_self, Nat.zero_xor]

/-- Claim C8: the Legacy Codec is self-inverse — decoding an encoded byte
sequence returns the original sequence, for every sequence. -/
theorem c8_legacy_codec_roundtrip : ∀ bs : List Nat, decode (encode bs) = bs :=
  fun bs => legacy_roundtrip 171 bs

/-- Claim C10: get_energy returns None (serialized null) when no device is
found or the device lacks energy monitoring; every non-null result
without the "error" key carries the deviceId, alias, currentPower,
voltage, current, todayEnergy, monthEnergy and totalEnergy fields; and
each numeric field is 0 whenever the device omits the corresponding raw
reading. -/
theorem c10_energy_null_and_defaults (ip : String) (d : Device) :
    (get_energy ip .notFound = none) ∧
    (pyFlag d.has_emeter = false → get_energy ip (.found d .ok) = none) ∧
    (∀ net : DiscoverSingleRes, ∀ j : JVal, get_energy ip net = some j →
      j.hasKey "error" = false →
      (j.hasKey "deviceId" = true ∧ j.hasKey "alias" = true ∧
       j.hasKey "currentPower" = true ∧ j.hasKey "voltage" = true ∧
       j.hasKey "current" = true ∧ j.hasKey "todayEnergy" = true ∧
       j.hasKey "monthEnergy" = true ∧ j.hasKey "totalEnergy" = true)) ∧
    ((∀ r : Realtime, d.emeter_realtime = some r → r.truthy = true →
        r.rget "power" = none ∧ r.rget "power_mw" = none) →
      (energy_to_dict d).lookupKey "currentPower" = some (.jnum 0)) ∧
    ((∀ r : Realtime, d.emeter_realtime = some r → r.truthy = true →
        r.rget "voltage" = none ∧ r.rget "voltage_mv" = none) →
      (energy_to_dict d).lookupKey "voltage" = some (.jnum 0)) ∧
    ((∀ r : Realtime, d.emeter_realtime = some r → r.truthy = true →
        r.rget "current" = none ∧ r.rget "current_ma" = none) →
      (energy_to_dict d).lookupKey "current" = some (.jnum 0)) ∧
    ((∀ r : Realtime, d.emeter_realtime = some r → r.truthy = true →
        r.rget "total" = none ∧ r.rget "total_wh" = none) →
      (energy_to_dict d).lookupKey "totalEnergy" = some (.jnum 0)) ∧
    ((∀ v : ℚ, d.emeter_today ≠ some (some v)) →
      (energy_to_dict d).lookupKey "todayEnergy" = some (.jnum 0)) ∧
    ((∀ v : ℚ, d.emeter_this_month ≠ some (some v)) →
      (energy_to_dict d).lookupKey "monthEnergy" = some (.jnum 0)) := by
  refine ⟨rfl, ?_, ?_, ?_, ?_, ?_, ?_, ?_, ?_⟩
  · intro h; simp [get_energy, h]
  · intro net j hj he
    cases net with
    | exn e => cases hj; simp [errObj, JVal.hasKey] at he
    | notFound => cases hj
    | found d' u =>
      cases u with
      | exn e => cases hj; simp [errObj, JVal.hasKey] at he
      | ok =>
        by_cases hf : pyFlag d'.has_emeter
        · simp only [get_energy, hf, if_true] at hj
          cases hj
          refine ⟨?_, ?_, ?_, ?_, ?_, ?_, ?_, ?_⟩ <;>
            simp [energy_to_dict, JVal.hasKey]
        · simp [get_energy, hf] at hj
  · intro h
    cases hr : d.emeter_realtime with
    | none => simp [energy_to_dict, hr, JVal.lookupKey]
    | some r =>
      by_cases ht : r.truthy
      · obtain ⟨h1, h2⟩ := h r hr ht
        simp [energy_to_dict, hr, ht, JVal.lookupKey, getWithMilli, h1, h2]
      · simp [energy_to_dict, hr, ht, JVal.lookupKey]
  · intro h
    cases hr : d.emeter_realtime with
    | none => simp [energy_to_dict, hr, JVal.lookupKey]
    | some r =>
      by_cases ht : r.truthy
      · obtain ⟨h1, h2⟩ := h r hr ht
        simp [energy_to_dict, hr, ht, JVal.lookupKey, getWithMilli, h1, h2]
      · simp [energy_to_dict, hr, ht, JVal.lookupKey]
  · intro h
    cases hr : d.emeter_realtime with
    | none => simp [energy_to_dict, hr, JVal.lookupKey]
    | some r =>
      by_cases ht : r.truthy
      · obtain ⟨h1, h2⟩ := h r hr ht
        simp [energy_to_dict, hr, ht, JVal.lookupKey, getWithMilli, h1, h2]
      · simp [energy_to_dict, hr, ht, JVal.lookupKey]
  · intro h
    cases hr : d.emeter_realtime with
    | none => simp [energy_to_dict, hr, JVal.lookupKey]
    | some r =>
      by_cases ht : r.truthy
      · obtain ⟨h1, h2⟩ := h r hr ht
        simp [energy_to_dict, hr, ht, JVal.lookupKey, getWithMilli, h1, h2]
      · simp [energy_to_dict, hr, ht, JVal.lookupKey]
  · intro h
    cases hr : d.emeter_today with
    | none => simp [energy_to_dict, hr, JVal.lookupKey]
    | some o =>
      cases o with
      | none => simp [energy_to_dict, hr, JVal.lookupKey]
      | some v => exact absurd hr (h v)
  · intro h
    cases hr : d.emeter_this_month with
    | none => simp [energy_to_dict, hr, JVal.lookupKey]
    | some o =>
      cases o with
      | none => simp [energy_to_dict, hr, JVal.lookupKey]
      | some v => exact absurd hr (h v)

/-- Witness for C10: a blank device without emeter capability yields None;
a fully attribute-less device defaults currentPower and todayEnergy to 0;
the milli-only emeter fixture yields a result carrying totalEnergy. -/
theorem c10_energy_null_and_defaults_witness :
    get_energy "10.0.0.3" (.found (Device.blank "10.0.0.3") .ok) = none ∧
    (energy_to_dict (Device.blank "10.0.0.3")).lookupKey "currentPower" =
      some (.jnum 0) ∧
    (energy_to_dict (Device.blank "10.0.0.3")).lookupKey "todayEnergy" =
      some (.jnum 0) ∧
    (energy_to_dict devMilliOnly).hasKey "totalEnergy" = true := by
  have hc := c10_energy_null_and_defaults "10.0.0.3" (Device.blank "10.0.0.3")
  have hc2 := c10_energy_null_and_defaults "10.0.0.7" devMilliOnly
  refine ⟨hc.2.1 rfl, hc.2.2.2.1 ?_, hc.2.2.2.2.2.2.2.1 ?_, ?_⟩
  · intro r hr; exact absurd hr (by simp [Device.blank])
  · intro v hv; exact absurd hv (by simp [Device.blank])
  · exact (hc2.2.2.1 (.found devMilliOnly .ok)
      (energy_to_dict devMilliOnly) rfl rfl).2.2.2.2.2.2.2
